import Mathlib

/-!
Verification of the end-to-end browser-test scenarios of the villa-rental
repository (files under testsprite_tests/).  The four Python scripts
TC004, TC005, TC007 and TC012 share one shape: a `try` block acquires an
engine handle (`pw`), a browser, a browsing context and a page, navigates,
performs best-effort ("soft") load waits, runs a sequence of hard
interaction and assertion steps, and a `finally` block closes
context, browser and engine in that order.

The shallow embedding below translates that structure directly:
* primitive operations whose success depends on the external browser are
  driven by an explicit environment (`Env`),
* Python control flow (first failure aborts the `try` block; the
  `finally` block runs exactly once; an exception raised inside `finally`
  replaces the in-flight exception and aborts the rest of the `finally`)
  is encoded in `runScript`,
* the domain assertions of TC004 (lines 52-84) are embedded as an
  explicit check sequence over a page fixture (`checksOf`, `runChecks`),
* the price extraction of TC004 line 75
  (`float(price_text.replace('$','').replace(',',''))`) is embedded as
  `extractPrice`, with Python float values modelled as rationals (every
  value appearing in the scenarios is exactly representable).
-/

/-- Result of one fallible engine-driven primitive, as chosen by the
environment: success, or a raised engine error carrying a message. -/
inductive StepResult where
  | ok : StepResult
  | err (msg : String) : StepResult
deriving DecidableEq, Repr

/-- Python exception taxonomy actually reachable in the scripts. -/
inductive Err where
  | nameError (n : String) : Err
  | assertionError (msg : String) : Err
  | engineError (msg : String) : Err
  | attrError (msg : String) : Err
  | valueError (msg : String) : Err
deriving DecidableEq, Repr

/-- Human-readable message of an exception, as Python renders it. -/
def Err.msg : Err → String
  | .nameError n => "name \x27" ++ n ++ "\x27 is not defined"
  | .assertionError m => m
  | .engineError m => m
  | .attrError m => m
  | .valueError m => m

/-- Outcome of the `try` block of a scenario. -/
inductive BodyOutcome where
  | done : BodyOutcome
  | fault (e : Err) : BodyOutcome
deriving DecidableEq, Repr

/-- Final verdict of one scenario run. -/
inductive RunResult where
  | passed : RunResult
  | failed (e : Err) : RunResult
deriving DecidableEq, Repr

/- ## String helpers (substring test, mirroring Python `in` on str) -/

/-- Bool test that `pat` is a leading segment of `l`. -/
def leadsWith : List Char → List Char → Bool
  | [], _ => true
  | _ :: _, [] => false
  | a :: as, b :: bs => a == b && leadsWith as bs

/-- Bool test that `needle` occurs contiguously inside `hay`. -/
def hasSub : List Char → List Char → Bool
  | [], needle => leadsWith needle []
  | c :: t, needle => leadsWith needle (c :: t) || hasSub t needle

/-- Python `needle in hay` on strings (contiguous substring test). -/
def strContains (hay needle : String) : Bool :=
  hasSub hay.data needle.data

/- ## Price extraction (TC004 line 75) -/

/-- Model of `s.replace('$','').replace(',','')` from TC004 line 75; for
single-character patterns replaced by the empty string this is exactly
deletion of those characters. -/
def stripPriceArtifacts (s : String) : String :=
  ⟨s.data.filter (fun c => !(c == '$' || c == ','))⟩

/-- Numeric value of a digit list read in base 10. -/
def digitsVal (ds : List Char) : Nat :=
  ds.foldl (fun a c => a * 10 + (c.toNat - 48)) 0

/-- Decimal-literal fragment of CPython `float(str)`: optional
whitespace, optional sign, digits with at most one decimal point and at
least one digit.  Exponent, infinity and nan spellings are outside the
fragment exercised by the scenarios and are not modelled.  Values are
modelled as rationals: every price literal in the scenarios is exactly
representable in binary floating point, so the rational model is exact. -/
def parseUnsigned (cs : List Char) : Option ℚ :=
  match cs.splitOn '.' with
  | [ds] =>
    if !ds.isEmpty && ds.all Char.isDigit then some ((digitsVal ds : ℕ) : ℚ) else none
  | [i, f] =>
    if (!i.isEmpty || !f.isEmpty) && i.all Char.isDigit && f.all Char.isDigit then
      some (((digitsVal i * 10 ^ f.length + digitsVal f : ℕ) : ℚ) / ((10 : ℚ) ^ f.length))
    else none
  | _ => none

/-- CPython `float(s)` on the decimal-literal fragment (see
`parseUnsigned`); `none` models the raised `ValueError`. -/
def pyFloatParse (s : String) : Option ℚ :=
  let cs := ((s.data.dropWhile Char.isWhitespace).reverse.dropWhile Char.isWhitespace).reverse
  match cs with
  | '-' :: t => (parseUnsigned t).map (fun q => -q)
  | '+' :: t => parseUnsigned t
  | t => parseUnsigned t

/-- TC004 line 75: `float(price_text.replace('$','').replace(',',''))`. -/
def extractPrice (s : String) : Option ℚ :=
  pyFloatParse (stripPriceArtifacts s)

/-- TC004 line 76: `100 <= price_value <= 500`. -/
def priceInRange (p : ℚ) : Bool :=
  decide (100 ≤ p) && decide (p ≤ 500)

/-- Stands in for CPython float formatting inside the f-string of TC004
line 76; no verified property relies on the exact digits rendered. -/
def pyNumRepr (q : ℚ) : String :=
  if q.den == 1 then toString q.num ++ ".0"
  else toString q.num ++ "/" ++ toString q.den

/- ## Page fixture and the TC004 assertion block (lines 52-84) -/

/-- One rendered villa card as observed through the selectors TC004
uses: presence of the `.multimedia` and `.villa-title` children, the
inner text of `.villa-price` and `.villa-location` when present, and the
text contents of the `.amenity` children. -/
structure Card where
  multimedia : Bool
  title : Bool
  price : Option String
  location : Option String
  amenities : List String
deriving DecidableEq, Repr

/-- The four `query_selector_all('.villa-card')` snapshots taken by TC004
(lines 53, 65, 71, 78); locators are re-resolved lazily so each query may
observe a different card list. -/
structure Fixture where
  q0 : List Card
  q1 : List Card
  q2 : List Card
  q3 : List Card
deriving DecidableEq, Repr

/-- Identity of one executed check of the TC004 assertion block; the
card index is 0-based. -/
inductive Check where
  | countCheck (phase : Nat) : Check
  | multimediaCheck (i : Nat) : Check
  | keyInfoCheck (i : Nat) : Check
  | locationCheck (i : Nat) : Check
  | priceCheck (i : Nat) : Check
  | amenityCheck (i : Nat) : Check
deriving DecidableEq, Repr

/-- TC004 lines 57-63 for one card: the multimedia presence check and
the combined title/price/location presence check, with the exact
assertion messages of the source. -/
def cardChecks1 (i : Nat) (c : Card) : List (Check × Option Err) :=
  [ (.multimediaCheck i,
      if c.multimedia then none
      else some (.assertionError "Villa multimedia not found")),
    (.keyInfoCheck i,
      if c.title && c.price.isSome && c.location.isSome then none
      else some (.assertionError "Key villa information missing")) ]

/-- TC004 lines 53-63: the count check then the per-card checks. -/
def phase1 (cards : List Card) : List (Check × Option Err) :=
  (.countCheck 1,
      if 0 < cards.length then none
      else some (.assertionError "No villas found on the listing page"))
    :: cards.enum.flatMap (fun ic => cardChecks1 ic.1 ic.2)

/-- TC004 lines 68-69 for one card: reading `.villa-location` inner text
(an absent element makes Python dereference `None`) and the substring
assertion with its f-string message. -/
def locVerdict (c : Card) : Option Err :=
  match c.location with
  | none => some (.attrError "\x27NoneType\x27 object has no attribute \x27inner_text\x27")
  | some t =>
    if strContains t "Expected Location" then none
    else some (.assertionError ("Villa location " ++ t ++ " does not match filter"))

/-- TC004 lines 65-69: the location-filter phase. -/
def phase2 (cards : List Card) : List (Check × Option Err) :=
  (.countCheck 2,
      if 0 < cards.length then none
      else some (.assertionError "No villas found after applying location filter"))
    :: cards.enum.map (fun ic => (.locationCheck ic.1, locVerdict ic.2))

/-- TC004 lines 74-76 for one card: read `.villa-price` inner text,
strip currency artifacts, parse, and check the 100-500 range, with the
exact error/assertion messages of the source. -/
def priceVerdict (c : Card) : Option Err :=
  match c.price with
  | none => some (.attrError "\x27NoneType\x27 object has no attribute \x27inner_text\x27")
  | some t =>
    match pyFloatParse (stripPriceArtifacts t) with
    | none =>
      some (.valueError
        ("could not convert string to float: \x27" ++ stripPriceArtifacts t ++ "\x27"))
    | some p =>
      if priceInRange p then none
      else some (.assertionError ("Villa price " ++ pyNumRepr p ++ " out of range"))

/-- TC004 lines 71-76: the price-filter phase. -/
def phase3 (cards : List Card) : List (Check × Option Err) :=
  (.countCheck 3,
      if 0 < cards.length then none
      else some (.assertionError "No villas found after applying price filter"))
    :: cards.enum.map (fun ic => (.priceCheck ic.1, priceVerdict ic.2))

/-- TC004 lines 81-83 for one card: `'Pool' in amenity_texts`. -/
def amenityVerdict (c : Card) : Option Err :=
  if c.amenities.contains "Pool" then none
  else some (.assertionError "Villa missing required amenity: Pool")

/-- TC004 lines 78-83: the amenities-filter phase. -/
def phase4 (cards : List Card) : List (Check × Option Err) :=
  (.countCheck 4,
      if 0 < cards.length then none
      else some (.assertionError "No villas found after applying amenities filter"))
    :: cards.enum.map (fun ic => (.amenityCheck ic.1, amenityVerdict ic.2))

/-- The full check sequence the TC004 assertion block would perform on a
fixture, in source order, paired with each check's verdict. -/
def checksOf (fx : Fixture) : List (Check × Option Err) :=
  phase1 fx.q0 ++ phase2 fx.q1 ++ phase3 fx.q2 ++ phase4 fx.q3

/-- Sequential execution of assertion checks: the first failing check
raises and no later check executes.  Returns the executed checks in
order and the outcome. -/
def runChecks : List (Check × Option Err) → List Check × BodyOutcome
  | [] => ([], .done)
  | (c, none) :: rest =>
    let r := runChecks rest
    (c :: r.1, r.2)
  | (c, some e) :: _ => ([c], .fault e)

/-- The TC004 assertion block (lines 52-84) run on a fixture. -/
def assertBlockRun (fx : Fixture) : List Check × BodyOutcome :=
  runChecks (checksOf fx)

/-- Scenario verdict bit derived from an outcome (`passed` field of the
spec's Verdict). -/
def verdict : BodyOutcome → Bool
  | .done => true
  | .fault _ => false

/- ## Scenario runner -/

/-- Observable events of one scenario run, in execution order. -/
inductive Event where
  | engineStarted : Event
  | browserLaunched : Event
  | contextCreated : Event
  | pageOpened : Event
  | navigated (url : String) : Event
  | softPageWait (ok : Bool) : Event
  | framesEnumerated (n : Nat) : Event
  | softFrameWait (i : Nat) (ok : Bool) : Event
  | wheelScrolled : Event
  | clicked (sel : String) : Event
  | filled (sel : String) (v : String) : Event
  | checked (c : Check) : Event
  | slept : Event
  | closedContext : Event
  | closedBrowser : Event
  | stoppedEngine : Event
deriving DecidableEq, Repr

/-- One statement of a scenario `try` block after session acquisition,
as the scripts write them.  `wheelScroll ident` is
`page.mouse.wheel(0, ident.innerHeight)`: before the engine call, Python
resolves the name `ident` in the script scope.  `softWaitPage` and
`frameDiscovery` are the try/except-wrapped load-state waits
(soft steps); everything else is a hard step. -/
inductive BStep where
  | nav (url : String) : BStep
  | softWaitPage : BStep
  | frameDiscovery : BStep
  | wheelScroll (ident : String) : BStep
  | click (sel : String) : BStep
  | fill (sel : String) (v : String) : BStep
  | assertBlockStep : BStep
  | assertFalseStep (msg : String) : BStep
  | sleepStep : BStep
deriving DecidableEq, Repr

/-- One scenario script: the names bound in the scope of its `run_test`
function (module imports, the function itself, locals assigned before
the interaction steps, and used builtins), and its `try`-block steps
after session acquisition. -/
structure Script where
  scope : List String
  body : List BStep

/-- Environment choices for the engine-driven part of one run: outcomes
of the four acquisition calls, of the i-th body step's engine call
(`interR i`), the number of frames the page reports, the page fixture
observed by the TC004 assertion block, and the outcomes of the three
teardown calls of the `finally` block. -/
structure HardEnv where
  startR : StepResult
  launchR : StepResult
  ctxR : StepResult
  pageR : StepResult
  interR : Nat → StepResult
  frameCount : Nat
  fixture : Fixture
  closeCtxR : StepResult
  closeBrowserR : StepResult
  stopR : StepResult

/-- Environment choices for the soft (best-effort) load-state waits:
whether the page-level wait and each per-frame wait complete before
their timeout.  Their failures are swallowed by the scripts'
try/except blocks. -/
structure SoftEnv where
  pageWait : Bool
  frameWait : Nat → Bool

/-- Full environment of one run. -/
structure Env where
  hard : HardEnv
  soft : SoftEnv

/-- Sequential execution of the `try`-block steps from position `i`:
the first raising hard step aborts the rest; soft-step failures are
swallowed.  Returns the emitted events and the block outcome. -/
def runBody (scope : List String) (env : Env) : List BStep → Nat → List Event × BodyOutcome
  | [], _ => ([], .done)
  | .nav url :: rest, i =>
    match env.hard.interR i with
    | .ok =>
      let r := runBody scope env rest (i + 1)
      (.navigated url :: r.1, r.2)
    | .err m => ([], .fault (.engineError m))
  | .softWaitPage :: rest, i =>
    let r := runBody scope env rest (i + 1)
    (.softPageWait env.soft.pageWait :: r.1, r.2)
  | .frameDiscovery :: rest, i =>
    let waits := (List.range env.hard.frameCount).map
      (fun j => Event.softFrameWait j (env.soft.frameWait j))
    let r := runBody scope env rest (i + 1)
    (.framesEnumerated env.hard.frameCount :: (waits ++ r.1), r.2)
  | .wheelScroll ident :: rest, i =>
    if ident ∈ scope then
      match env.hard.interR i with
      | .ok =>
        let r := runBody scope env rest (i + 1)
        (.wheelScrolled :: r.1, r.2)
      | .err m => ([], .fault (.engineError m))
    else ([], .fault (.nameError ident))
  | .click sel :: rest, i =>
    match env.hard.interR i with
    | .ok =>
      let r := runBody scope env rest (i + 1)
      (.clicked sel :: r.1, r.2)
    | .err m => ([], .fault (.engineError m))
  | .fill sel v :: rest, i =>
    match env.hard.interR i with
    | .ok =>
      let r := runBody scope env rest (i + 1)
      (.filled sel v :: r.1, r.2)
    | .err m => ([], .fault (.engineError m))
  | .assertBlockStep :: rest, i =>
    let b := assertBlockRun env.hard.fixture
    match b.2 with
    | .done =>
      let r := runBody scope env rest (i + 1)
      (b.1.map .checked ++ r.1, r.2)
    | .fault e => (b.1.map .checked, .fault e)
  | .assertFalseStep m :: _, _ => ([], .fault (.assertionError m))
  | .sleepStep :: rest, i =>
    let r := runBody scope env rest (i + 1)
    (.slept :: r.1, r.2)

/-- Which of `pw`, `browser`, `context` are bound to a live handle when
the `finally` block starts (each variable is initialised to `None` and
assigned only if its acquisition call returned). -/
structure Acq where
  pw : Bool
  browser : Bool
  ctx : Bool
deriving DecidableEq, Repr

/-- The `try` block: the four acquisition calls in order, then the body
steps.  A raising acquisition leaves the later handles unbound. -/
def runTry (s : Script) (env : Env) : List Event × BodyOutcome × Acq :=
  match env.hard.startR with
  | .err m => ([], .fault (.engineError m), ⟨false, false, false⟩)
  | .ok =>
    match env.hard.launchR with
    | .err m => ([.engineStarted], .fault (.engineError m), ⟨true, false, false⟩)
    | .ok =>
      match env.hard.ctxR with
      | .err m => ([.engineStarted, .browserLaunched], .fault (.engineError m), ⟨true, true, false⟩)
      | .ok =>
        match env.hard.pageR with
        | .err m =>
          ([.engineStarted, .browserLaunched, .contextCreated], .fault (.engineError m),
            ⟨true, true, true⟩)
        | .ok =>
          let b := runBody s.scope env s.body 0
          ([.engineStarted, .browserLaunched, .contextCreated, .pageOpened] ++ b.1, b.2,
            ⟨true, true, true⟩)

/-- Tail of the `finally` block: `if pw: await pw.stop()`. -/
def teardownEngine (acq : Acq) (h : HardEnv) : List Event × Option Err :=
  if acq.pw then
    match h.stopR with
    | .err m => ([], some (.engineError m))
    | .ok => ([.stoppedEngine], none)
  else ([], none)

/-- Middle of the `finally` block: `if browser: await browser.close()`.
A raised close error aborts the rest of the `finally` block, exactly as
in Python. -/
def teardownBrowser (acq : Acq) (h : HardEnv) : List Event × Option Err :=
  if acq.browser then
    match h.closeBrowserR with
    | .err m => ([], some (.engineError m))
    | .ok =>
      let r := teardownEngine acq h
      (.closedBrowser :: r.1, r.2)
  else teardownEngine acq h

/-- The `finally` block of every script: close context, then browser,
then stop the engine, each guarded by `if handle:`; an exception raised
by one close propagates and skips the remaining closes. -/
def teardown (acq : Acq) (h : HardEnv) : List Event × Option Err :=
  if acq.ctx then
    match h.closeCtxR with
    | .err m => ([], some (.engineError m))
    | .ok =>
      let r := teardownBrowser acq h
      (.closedContext :: r.1, r.2)
  else teardownBrowser acq h

/-- Outcome of one whole scenario run. -/
structure RunOut where
  trace : List Event
  body : BodyOutcome
  result : RunResult
deriving DecidableEq, Repr

/-- Final verdict from the teardown outcome and the `try`-block
outcome: an exception raised inside `finally` replaces the in-flight
exception of the `try` block, exactly as in Python. -/
def combineResult : Option Err → BodyOutcome → RunResult
  | some e, _ => .failed e
  | none, .done => .passed
  | none, .fault e => .failed e

/-- One scenario run, with Python try/finally semantics: the `finally`
block executes exactly once on every exit path. -/
def runScript (s : Script) (env : Env) : RunOut :=
  let t := runTry s env
  let d := teardown t.2.2 env.hard
  ⟨t.1 ++ d.1, t.2.1, combineResult d.2 t.2.1⟩

/-- Handle-liveness flags a run reaches its `finally` block with. -/
def acqOf (s : Script) (env : Env) : Acq :=
  (runTry s env).2.2

/- ## The four scenario scripts -/

/-- Base URL every scenario navigates to (line 32 of each script). -/
def baseUrl : String := "http://localhost:5175"

/-- The placeholder assertion message ending TC005, TC007 and TC012. -/
def genericFailMsg : String := "Test plan execution failed: generic failure assertion."

/-- Names visible at TC004 line 49: module bindings (`asyncio`,
`async_api`, `run_test`), locals assigned earlier in `run_test`
(`pw`, `browser`, `context`, `page`, the loop variable `frame`), and the
builtins the script uses.  `window` is a browser-side JavaScript global
and is not bound anywhere in the Python module. -/
def tc004Scope : List String :=
  ["asyncio", "async_api", "run_test", "pw", "browser", "context", "page", "frame",
   "len", "float", "print"]

/-- Names visible at TC005 line 49 (same binding structure as TC004). -/
def tc005Scope : List String :=
  ["asyncio", "async_api", "run_test", "pw", "browser", "context", "page", "frame",
   "len", "float", "print"]

/-- Names visible at TC012 line 49 (same binding structure as TC004). -/
def tc012Scope : List String :=
  ["asyncio", "async_api", "run_test", "pw", "browser", "context", "page", "frame",
   "len", "float", "print"]

/-- TC004_Villa_Browsing_and_Search_Filters.py, lines 32-84. -/
def tc004 : Script :=
  { scope := tc004Scope
    body :=
      [ .nav baseUrl
      , .softWaitPage
      , .frameDiscovery
      , .wheelScroll "window"
      , .assertBlockStep
      , .sleepStep ] }

/-- TC005_Host_Villa_Onboarding_Wizard_Complete_Flow.py, lines 32-175. -/
def tc005 : Script :=
  { scope := tc005Scope
    body :=
      [ .nav baseUrl
      , .softWaitPage
      , .frameDiscovery
      , .wheelScroll "window"
      , .wheelScroll "window"
      , .nav (baseUrl ++ "/login")
      , .click "xpath=html/body/div/div/div/div/a"
      , .click "xpath=html/body/div/div/div/div/div[2]/div/a[2]"
      , .fill "xpath=html/body/div/div/div/div/div/form/div/input" "host@example.com"
      , .fill "xpath=html/body/div/div/div/div/div/form/div[2]/input" "HostPassword123"
      , .click "xpath=html/body/div/div/div/div/div/form/button"
      , .click "xpath=html/body/div/div/div/div/div/div/a"
      , .fill "xpath=html/body/div/div/div/div/form/div/input" "host@example.com"
      , .click "xpath=html/body/div/div/div/div/form/button"
      , .click "xpath=html/body/div/div/div/div/div/div[2]/a"
      , .fill "xpath=html/body/div/div/div/div/div/form/div/input" "host@example.com"
      , .fill "xpath=html/body/div/div/div/div/div/form/div[2]/input" "NewHostPassword123"
      , .click "xpath=html/body/div/div/div/div/div/form/button"
      , .click "xpath=html/body/div/div/div/div/div/div/div/a"
      , .fill "xpath=html/body/div/div/div/div/form/div[2]/input" "Test Host"
      , .fill "xpath=html/body/div/div/div/div/form/div[3]/input" "testhost@example.com"
      , .fill "xpath=html/body/div/div/div/div/form/div[4]/div/input" "TestHostPass123"
      , .click "xpath=html/body/div/div/div/div/form/div[5]/label/input"
      , .click "xpath=html/body/div/div/div/div/form/button"
      , .fill "xpath=html/body/div/div/div[2]/div/div/form/div/input" "testhost@example.com"
      , .fill "xpath=html/body/div/div/div[2]/div/div/form/div[2]/input" "TestHostPass123"
      , .click "xpath=html/body/div/div/div[2]/div/div/form/button"
      , .assertFalseStep genericFailMsg
      , .sleepStep ] }

/-- Interaction steps of TC007 up to, but not including, the final
placeholder assertion (lines 32-147); TC007 contains no scroll step. -/
def tc007Steps : List BStep :=
  [ .nav baseUrl
  , .softWaitPage
  , .frameDiscovery
  , .click "xpath=html/body/div/div/div/div/div[2]/div/a[2]"
  , .fill "xpath=html/body/div/div/div/div/div/form/div/input" "guest@example.com"
  , .fill "xpath=html/body/div/div/div/div/div/form/div[2]/input" "guestpassword"
  , .click "xpath=html/body/div/div/div/div/div/form/button"
  , .click "xpath=html/body/div/div/nav/div/div/a"
  , .click "xpath=html/body/div/div/div/div[2]/section/div[2]/div/a"
  , .click "xpath=html/body/div/div/nav/div/div/a"
  , .click "xpath=html/body/div/div/div/div[2]/section/div[2]/div/a[2]"
  , .click "xpath=html/body/div/div/nav/div/div/a"
  , .click "xpath=html/body/div/div/div/div[2]/section/div[2]/div/a[3]"
  , .click "xpath=html/body/div/div/nav/div/div/a"
  , .fill "xpath=html/body/div/div/div/div/div[2]/form/input" "Malibu"
  , .fill "xpath=html/body/div/div/div/div/div[2]/form/input[2]" "2025-08-01"
  , .fill "xpath=html/body/div/div/div/div/div[2]/form/input[3]" "2025-08-05"
  , .fill "xpath=html/body/div/div/div/div/div[2]/form/input[4]" "2"
  , .click "xpath=html/body/div/div/div/div/div[2]/form/button"
  , .click "xpath=html/body/div/div/div/div/div[3]/div/div[2]/div/div/div/a"
  , .click "xpath=html/body/div/div/nav/div/div/a" ]

/-- TC007_Booking_Process_Including_Availability_and_Price_Validation.py,
lines 32-151. -/
def tc007 : Script :=
  { scope :=
      ["asyncio", "async_api", "run_test", "pw", "browser", "context", "page", "frame",
       "len", "float", "print"]
    body := tc007Steps ++ [.assertFalseStep genericFailMsg, .sleepStep] }

/-- TC012_Dashboard_Views_for_Guests_and_Hosts.py, lines 32-121. -/
def tc012 : Script :=
  { scope := tc012Scope
    body :=
      [ .nav baseUrl
      , .softWaitPage
      , .frameDiscovery
      , .wheelScroll "window"
      , .nav (baseUrl ++ "/login")
      , .nav (baseUrl ++ "/home")
      , .click "xpath=html/body/div/div/div/div/a"
      , .click "xpath=html/body/div/div/div/div/div[2]/div/a[2]"
      , .fill "xpath=html/body/div/div/div/div/div/form/div/input" "guest@example.com"
      , .fill "xpath=html/body/div/div/div/div/div/form/div[2]/input" "guestpassword"
      , .click "xpath=html/body/div/div/div/div/div/form/button"
      , .click "xpath=html/body/div/div/div/div/div/div/div/a"
      , .fill "xpath=html/body/div/div/div/div/form/div[2]/input" "Test Guest"
      , .fill "xpath=html/body/div/div/div/div/form/div[3]/input" "testguest@example.com"
      , .fill "xpath=html/body/div/div/div/div/form/div[4]/div/input" "guestpass123"
      , .click "xpath=html/body/div/div/div/div/form/div[5]/label/input"
      , .click "xpath=html/body/div/div/div/div/form/button"
      , .assertFalseStep genericFailMsg
      , .sleepStep ] }

/- ## Classifiers over events and steps -/

/-- Teardown events: the three resource closes of the `finally` block. -/
def isClose : Event → Bool
  | .closedContext => true
  | .closedBrowser => true
  | .stoppedEngine => true
  | _ => false

/-- Events emitted by the soft (best-effort, failure-swallowing) load
waits. -/
def isSoftEv : Event → Bool
  | .softPageWait _ => true
  | .softFrameWait _ _ => true
  | _ => false

/-- The close events the `finally` block performs given which handles
are live: context first, then browser, then engine, each at most once. -/
def closeSeq (acq : Acq) : List Event :=
  (if acq.ctx then [Event.closedContext] else [])
    ++ (if acq.browser then [Event.closedBrowser] else [])
    ++ (if acq.pw then [Event.stoppedEngine] else [])

/-- Steps that can only fail through their engine call (no name
resolution, no assertion): navigation, the soft waits, clicks, fills. -/
def isBenign : BStep → Bool
  | .nav _ => true
  | .softWaitPage => true
  | .frameDiscovery => true
  | .click _ => true
  | .fill _ _ => true
  | _ => false

/-- Events a benign step can emit; in particular never `slept`. -/
def benignEvent : Event → Bool
  | .slept => false
  | .closedContext => false
  | .closedBrowser => false
  | .stoppedEngine => false
  | _ => true

/- ## Concrete environments and fixtures used by witnesses -/

/-- Empty page fixture. -/
def fxEmpty : Fixture := ⟨[], [], [], []⟩

/-- Environment in which every engine call succeeds and every soft wait
completes. -/
def envAllOk : Env :=
  { hard :=
      { startR := .ok, launchR := .ok, ctxR := .ok, pageR := .ok
        interR := fun _ => .ok, frameCount := 1, fixture := fxEmpty
        closeCtxR := .ok, closeBrowserR := .ok, stopR := .ok }
    soft := { pageWait := true, frameWait := fun _ => true } }

/-- Environment for the teardown-masking counterexample: the navigation
fails with message "E" and closing the context fails with message
"boom"; everything else succeeds. -/
def envTeardownFault : Env :=
  { hard :=
      { startR := .ok, launchR := .ok, ctxR := .ok, pageR := .ok
        interR := fun _ => .err "E", frameCount := 0, fixture := fxEmpty
        closeCtxR := .err "boom", closeBrowserR := .ok, stopR := .ok }
    soft := { pageWait := true, frameWait := fun _ => true } }

/-- Fully populated villa card (price 150, matching location, Pool). -/
def cardFull : Card :=
  ⟨true, true, some "$150.00", some "Expected Location beach", ["Pool"]⟩

/-- Villa card whose `.villa-price` element is absent; everything else
present. -/
def cardNoPrice : Card :=
  ⟨true, true, none, some "Expected Location beach", ["Pool"]⟩

/-- Card whose price text cannot be parsed as a number. -/
def cardBadPrice : Card :=
  ⟨true, true, some "N/A", some "Expected Location beach", ["Pool"]⟩

/-- Modelled from the spec: the application-side price-range filter of
the villa marketplace (the web application itself is not under src/;
the spec states that a filter request [low, high] presents exactly the
cards whose prices lie in that inclusive range). -/
def priceRangeFilter (low high : ℚ) (prices : List ℚ) : List ℚ :=
  prices.filter (fun p => decide (low ≤ p) && decide (p ≤ high))

/-- Card rendered with price text "$80.00". -/
def cardPrice80 : Card :=
  ⟨true, true, some "$80.00", some "Expected Location beach", ["Pool"]⟩

/-- Card rendered with price text "$150.00". -/
def cardPrice150 : Card :=
  ⟨true, true, some "$150.00", some "Expected Location beach", ["Pool"]⟩

/-- Card rendered with price text "$300.00". -/
def cardPrice300 : Card :=
  ⟨true, true, some "$300.00", some "Expected Location beach", ["Pool"]⟩

/-- Card rendered with price text "$600.00". -/
def cardPrice600 : Card :=
  ⟨true, true, some "$600.00", some "Expected Location beach", ["Pool"]⟩

/-- Events emitted before the scroll step of a scenario whose body
starts with navigate, page soft wait, frame discovery, scroll: exactly
navigation and load-wait events — neither assertion checks nor sleeps
nor closes. -/
def preScrollEvent : Event → Bool
  | .navigated _ => true
  | .softPageWait _ => true
  | .framesEnumerated _ => true
  | .softFrameWait _ _ => true
  | _ => false

/-- The fixture of the listing-page scenario of the spec: three cards
where the second (card #2, index 1) lacks a price element. -/
def fxThreeCards : Fixture :=
  ⟨[cardFull, cardNoPrice, cardFull], [], [], []⟩

/- ## Structural lemmas about the runner -/

/-- No close event is emitted inside the `try` block's step sequence. -/
theorem runBody_no_close (sc : List String) (env : Env) :
    ∀ (steps : List BStep) (i : Nat), ∀ e ∈ (runBody sc env steps i).1, isClose e = false := by
  intro steps
  induction steps with
  | nil => intro i e he; simp [runBody] at he
  | cons s rest ih =>
    intro i e he
    cases s with
    | nav url =>
      cases h : env.hard.interR i with
      | ok =>
        simp only [runBody, h, List.mem_cons] at he
        rcases he with rfl | he
        · rfl
        · exact ih (i + 1) e he
      | err m => simp [runBody, h] at he
    | softWaitPage =>
      simp only [runBody, List.mem_cons] at he
      rcases he with rfl | he
      · rfl
      · exact ih (i + 1) e he
    | frameDiscovery =>
      simp only [runBody, List.mem_cons, List.mem_append, List.mem_map,
        List.mem_range] at he
      rcases he with rfl | ⟨j, _, rfl⟩ | he
      · rfl
      · rfl
      · exact ih (i + 1) e he
    | wheelScroll ident =>
      by_cases hc : ident ∈ sc
      · cases h : env.hard.interR i with
        | ok =>
          simp only [runBody, if_pos hc, h, List.mem_cons] at he
          rcases he with rfl | he
          · rfl
          · exact ih (i + 1) e he
        | err m => simp [runBody, if_pos hc, h] at he
      · simp [runBody, if_neg hc] at he
    | click sel =>
      cases h : env.hard.interR i with
      | ok =>
        simp only [runBody, h, List.mem_cons] at he
        rcases he with rfl | he
        · rfl
        · exact ih (i + 1) e he
      | err m => simp [runBody, h] at he
    | fill sel v =>
      cases h : env.hard.interR i with
      | ok =>
        simp only [runBody, h, List.mem_cons] at he
        rcases he with rfl | he
        · rfl
        · exact ih (i + 1) e he
      | err m => simp [runBody, h] at he
    | assertBlockStep =>
      cases hb : (assertBlockRun env.hard.fixture).2 with
      | done =>
        simp only [runBody, hb, List.mem_append, List.mem_map] at he
        rcases he with ⟨c, _, rfl⟩ | he
        · rfl
        · exact ih (i + 1) e he
      | fault err =>
        simp only [runBody, hb, List.mem_map] at he
        obtain ⟨c, _, rfl⟩ := he
        rfl
    | assertFalseStep m => simp [runBody] at he
    | sleepStep =>
      simp only [runBody, List.mem_cons] at he
      rcases he with rfl | he
      · rfl
      · exact ih (i + 1) e he

/-- No close event is emitted inside the whole `try` block. -/
theorem runTry_no_close (s : Script) (env : Env) :
    ∀ e ∈ (runTry s env).1, isClose e = false := by
  intro e he
  unfold runTry at he
  cases h1 : env.hard.startR with
  | err m => simp [h1] at he
  | ok =>
    cases h2 : env.hard.launchR with
    | err m => simp [h1, h2] at he; subst he; rfl
    | ok =>
      cases h3 : env.hard.ctxR with
      | err m =>
        simp [h1, h2, h3] at he
        rcases he with rfl | rfl <;> rfl
      | ok =>
        cases h4 : env.hard.pageR with
        | err m =>
          simp [h1, h2, h3, h4] at he
          rcases he with rfl | rfl | rfl <;> rfl
        | ok =>
          simp [h1, h2, h3, h4] at he
          rcases he with rfl | rfl | rfl | rfl | he
          · rfl
          · rfl
          · rfl
          · rfl
          · exact runBody_no_close s.scope env s.body 0 e he

/-- Every event the engine-stop tail of the `finally` block emits is a
close event. -/
theorem teardownEngine_all_close (acq : Acq) (h : HardEnv) :
    ∀ e ∈ (teardownEngine acq h).1, isClose e = true := by
  intro e he
  unfold teardownEngine at he
  by_cases hp : acq.pw = true
  · cases h3 : h.stopR with
    | ok => simp [hp, h3] at he; subst he; rfl
    | err m => simp [hp, h3] at he
  · simp [hp] at he

/-- Every event the browser-close tail of the `finally` block emits is a
close event. -/
theorem teardownBrowser_all_close (acq : Acq) (h : HardEnv) :
    ∀ e ∈ (teardownBrowser acq h).1, isClose e = true := by
  intro e he
  unfold teardownBrowser at he
  by_cases hb : acq.browser = true
  · cases h2 : h.closeBrowserR with
    | ok =>
      simp only [hb, if_true, h2, List.mem_cons] at he
      rcases he with rfl | he
      · rfl
      · exact teardownEngine_all_close acq h e he
    | err m => simp [hb, h2] at he
  · simp only [hb] at he
    simp only [if_false, Bool.false_eq_true] at he
    exact teardownEngine_all_close acq h e (by simpa using he)

/-- Every event the `finally` block emits is a close event. -/
theorem teardown_all_close (acq : Acq) (h : HardEnv) :
    ∀ e ∈ (teardown acq h).1, isClose e = true := by
  intro e he
  unfold teardown at he
  by_cases hc : acq.ctx = true
  · cases h1 : h.closeCtxR with
    | ok =>
      simp only [hc, if_true, h1, List.mem_cons] at he
      rcases he with rfl | he
      · rfl
      · exact teardownBrowser_all_close acq h e he
    | err m => simp [hc, h1] at he
  · exact teardownBrowser_all_close acq h e (by simpa [hc] using he)

/-- When all three closes succeed, the `finally` block performs exactly
the closes of the live handles, in context-browser-engine order. -/
theorem teardown_ok (acq : Acq) (h : HardEnv)
    (h1 : h.closeCtxR = .ok) (h2 : h.closeBrowserR = .ok) (h3 : h.stopR = .ok) :
    teardown acq h = (closeSeq acq, none) := by
  obtain ⟨p, b, c⟩ := acq
  cases p <;> cases b <;> cases c <;>
    simp [teardown, teardownBrowser, teardownEngine, closeSeq, h1, h2, h3]

/-- Every element of `closeSeq` is a close event. -/
theorem closeSeq_all_close (acq : Acq) : ∀ e ∈ closeSeq acq, isClose e = true := by
  intro e he
  simp only [closeSeq, List.mem_append] at he
  rcases he with (he | he) | he
  · by_cases h : acq.ctx = true
    · simp [h] at he; subst he; rfl
    · simp [h] at he
  · by_cases h : acq.browser = true
    · simp [h] at he; subst he; rfl
    · simp [h] at he
  · by_cases h : acq.pw = true
    · simp [h] at he; subst he; rfl
    · simp [h] at he

/-- Counts of the three close events in `closeSeq`. -/
theorem closeSeq_count (acq : Acq) :
    (closeSeq acq).count Event.closedContext = (if acq.ctx then 1 else 0)
    ∧ (closeSeq acq).count Event.closedBrowser = (if acq.browser then 1 else 0)
    ∧ (closeSeq acq).count Event.stoppedEngine = (if acq.pw then 1 else 0) := by
  obtain ⟨p, b, c⟩ := acq
  cases p <;> cases b <;> cases c <;> exact ⟨rfl, rfl, rfl⟩

/-- Close events never occur in the `try`-block part of a trace. -/
theorem runTry_count_close (s : Script) (env : Env) (e : Event) (he : isClose e = true) :
    (runTry s env).1.count e = 0 := by
  rw [List.count_eq_zero]
  intro hmem
  have := runTry_no_close s env e hmem
  rw [this] at he
  exact Bool.false_ne_true he

/-- C1: for every scenario run, whatever exit path the `try` block takes
(normal completion, assertion failure, or an unexpected fault mid-run),
the `finally` block runs exactly once and closes exactly the acquired
resources in reverse-acquisition order — browsing context, then browser,
then engine handle — as the final events of the run (stated under
teardown calls succeeding; their own failure behaviour is the subject of
the C2 analysis). -/
theorem C1_session_teardown_once (s : Script) (env : Env)
    (h1 : env.hard.closeCtxR = .ok) (h2 : env.hard.closeBrowserR = .ok)
    (h3 : env.hard.stopR = .ok) :
    (runScript s env).trace.filter isClose = closeSeq (acqOf s env)
    ∧ closeSeq (acqOf s env) <:+ (runScript s env).trace
    ∧ (runScript s env).trace.count Event.closedContext
        = (if (acqOf s env).ctx then 1 else 0)
    ∧ (runScript s env).trace.count Event.closedBrowser
        = (if (acqOf s env).browser then 1 else 0)
    ∧ (runScript s env).trace.count Event.stoppedEngine
        = (if (acqOf s env).pw then 1 else 0) := by
  have htrace : (runScript s env).trace
      = (runTry s env).1 ++ (teardown (acqOf s env) env.hard).1 := rfl
  have ht1 : (teardown (acqOf s env) env.hard).1 = closeSeq (acqOf s env) := by
    rw [teardown_ok (acqOf s env) env.hard h1 h2 h3]
  rw [htrace, ht1]
  obtain ⟨c1, c2, c3⟩ := closeSeq_count (acqOf s env)
  refine ⟨?_, ⟨_, rfl⟩, ?_, ?_, ?_⟩
  · rw [List.filter_append]
    have hnil : (runTry s env).1.filter isClose = [] := by
      rw [List.filter_eq_nil_iff]
      intro a ha
      rw [runTry_no_close s env a ha]
      exact Bool.false_ne_true
    have hself : (closeSeq (acqOf s env)).filter isClose = closeSeq (acqOf s env) :=
      List.filter_eq_self.mpr (closeSeq_all_close (acqOf s env))
    rw [hnil, hself, List.nil_append]
  · rw [List.count_append, runTry_count_close s env Event.closedContext rfl, c1, Nat.zero_add]
  · rw [List.count_append, runTry_count_close s env Event.closedBrowser rfl, c2, Nat.zero_add]
  · rw [List.count_append, runTry_count_close s env Event.stoppedEngine rfl, c3, Nat.zero_add]

/-- Witness for C1: a concrete all-succeeding run of TC004. -/
theorem C1_session_teardown_once_witness :
    (runScript tc004 envAllOk).trace.filter isClose = closeSeq (acqOf tc004 envAllOk)
    ∧ closeSeq (acqOf tc004 envAllOk) <:+ (runScript tc004 envAllOk).trace
    ∧ (runScript tc004 envAllOk).trace.count Event.closedContext
        = (if (acqOf tc004 envAllOk).ctx then 1 else 0)
    ∧ (runScript tc004 envAllOk).trace.count Event.closedBrowser
        = (if (acqOf tc004 envAllOk).browser then 1 else 0)
    ∧ (runScript tc004 envAllOk).trace.count Event.stoppedEngine
        = (if (acqOf tc004 envAllOk).pw then 1 else 0) :=
  C1_session_teardown_once tc004 envAllOk rfl rfl rfl

/-- C2 counterexample: in a TC004 run whose navigation fails with
engine error "E" and whose context close then fails with "boom", the
teardown error is not suppressed: the run reports "boom" instead of the
original failure "E", and the sibling browser close and engine stop
never happen. -/
theorem C2_counterexample_teardown_masks_failure :
    (runScript tc004 envTeardownFault).body = .fault (.engineError "E")
    ∧ (runScript tc004 envTeardownFault).result = .failed (.engineError "boom")
    ∧ (runScript tc004 envTeardownFault).result ≠ .failed (.engineError "E")
    ∧ Event.closedBrowser ∉ (runScript tc004 envTeardownFault).trace
    ∧ Event.stoppedEngine ∉ (runScript tc004 envTeardownFault).trace := by decide

/-- C2 amended: teardown failures are not caught by the scripts.  When
the `try` block fails with E, the original failure E is the reported
one only if every close of the `finally` block succeeds; if closing the
context raises, that teardown error replaces E as the reported failure
and prevents the browser close and the engine stop from running. -/
theorem C2_amended_teardown_error_propagates (s : Script) (env : Env) (e : Err)
    (hb : (runScript s env).body = .fault e) :
    (env.hard.closeCtxR = .ok → env.hard.closeBrowserR = .ok → env.hard.stopR = .ok →
        (runScript s env).result = .failed e)
    ∧ (∀ m, env.hard.closeCtxR = .err m → (acqOf s env).ctx = true →
        ((runScript s env).result = .failed (.engineError m)
          ∧ Event.closedBrowser ∉ (runScript s env).trace
          ∧ Event.stoppedEngine ∉ (runScript s env).trace)) := by
  have hbody : (runScript s env).body = (runTry s env).2.1 := rfl
  have hres : (runScript s env).result
      = combineResult (teardown (acqOf s env) env.hard).2 (runTry s env).2.1 := rfl
  rw [hbody] at hb
  constructor
  · intro h1 h2 h3
    rw [hres, teardown_ok (acqOf s env) env.hard h1 h2 h3, hb]
    rfl
  · intro m hm hc
    have ht : teardown (acqOf s env) env.hard = ([], some (.engineError m)) := by
      unfold teardown
      rw [if_pos hc, hm]
    have htrace : (runScript s env).trace
        = (runTry s env).1 ++ (teardown (acqOf s env) env.hard).1 := rfl
    refine ⟨by rw [hres, ht]; rfl, ?_, ?_⟩
    · intro hmem
      rw [htrace, ht, List.append_nil] at hmem
      have := runTry_no_close s env _ hmem
      simp [isClose] at this
    · intro hmem
      rw [htrace, ht, List.append_nil] at hmem
      have := runTry_no_close s env _ hmem
      simp [isClose] at this

/-- Witness for C2: the amended theorem applied to the concrete
masking run. -/
theorem C2_amended_teardown_error_propagates_witness :
    (runScript tc004 envTeardownFault).result = .failed (.engineError "boom")
    ∧ Event.closedBrowser ∉ (runScript tc004 envTeardownFault).trace
    ∧ Event.stoppedEngine ∉ (runScript tc004 envTeardownFault).trace :=
  (C2_amended_teardown_error_propagates tc004 envTeardownFault (.engineError "E")
      (by decide)).2 "boom" rfl (by decide)

/- ## Lemmas about the assertion block -/

/-- A string append whose first component has nonempty character data
has nonempty character data. -/
theorem strAppend_data_ne (s t : String) (h : s.data ≠ []) : (s ++ t).data ≠ [] := by
  cases s with
  | mk ls =>
    cases t with
    | mk lt =>
      intro heq
      exact h (List.append_eq_nil.mp heq).1

/-- A string with nonempty character data is not the empty string. -/
theorem strNe_of_data (s : String) (h : s.data ≠ []) : s ≠ "" := by
  intro heq
  rw [heq] at h
  exact h rfl

/-- Appending to a string with nonempty data never yields the empty
string. -/
theorem msg_append_ne (a t : String) (h : a.data ≠ []) : a ++ t ≠ "" :=
  strNe_of_data _ (strAppend_data_ne a t h)

/-- Location-phase verdicts always carry a nonempty message. -/
theorem locVerdict_msg_ne (c : Card) (e : Err) (h : locVerdict c = some e) :
    Err.msg e ≠ "" := by
  unfold locVerdict at h
  split at h
  · injection h with h; subst h; decide
  · split at h
    · simp at h
    · injection h with h
      subst h
      first
      | exact msg_append_ne _ _ (by decide)
      | exact msg_append_ne _ _ (strAppend_data_ne _ _ (by decide))

/-- Price-phase verdicts always carry a nonempty message. -/
theorem priceVerdict_msg_ne (c : Card) (e : Err) (h : priceVerdict c = some e) :
    Err.msg e ≠ "" := by
  unfold priceVerdict at h
  split at h
  · injection h with h; subst h; decide
  · split at h
    · injection h with h
      subst h
      first
      | exact msg_append_ne _ _ (by decide)
      | exact msg_append_ne _ _ (strAppend_data_ne _ _ (by decide))
    · split at h
      · simp at h
      · injection h with h
        subst h
        first
        | exact msg_append_ne _ _ (by decide)
        | exact msg_append_ne _ _ (strAppend_data_ne _ _ (by decide))

/-- Amenity-phase verdicts always carry a nonempty message. -/
theorem amenityVerdict_msg_ne (c : Card) (e : Err) (h : amenityVerdict c = some e) :
    Err.msg e ≠ "" := by
  unfold amenityVerdict at h
  split at h
  · simp at h
  · injection h with h; subst h; decide

/-- First-phase per-card verdicts always carry a nonempty message. -/
theorem cardChecks1_msg_ne (i : Nat) (c : Card) (p : Check × Option Err)
    (hp : p ∈ cardChecks1 i c) (e : Err) (he : p.2 = some e) : Err.msg e ≠ "" := by
  unfold cardChecks1 at hp
  simp only [List.mem_cons, List.not_mem_nil, or_false] at hp
  rcases hp with hpe | hpe
  · have h2 : p.2 = (if c.multimedia then none
        else some (Err.assertionError "Villa multimedia not found")) := by rw [hpe]
    rw [h2] at he
    split at he
    · simp at he
    · injection he with he; subst he; decide
  · have h2 : p.2 = (if c.title && c.price.isSome && c.location.isSome then none
        else some (Err.assertionError "Key villa information missing")) := by rw [hpe]
    rw [h2] at he
    split at he
    · simp at he
    · injection he with he; subst he; decide

/-- Every failing check of the TC004 assertion block carries a nonempty
message. -/
theorem checksOf_msg_ne_empty (fx : Fixture) :
    ∀ p ∈ checksOf fx, ∀ e, p.2 = some e → Err.msg e ≠ "" := by
  intro p hp e he
  unfold checksOf at hp
  simp only [List.mem_append] at hp
  rcases hp with ((hp | hp) | hp) | hp
  · unfold phase1 at hp
    rcases List.mem_cons.mp hp with hpe | hp
    · have h2 : p.2 = (if 0 < fx.q0.length then none
          else some (Err.assertionError "No villas found on the listing page")) := by rw [hpe]
      rw [h2] at he
      split at he
      · simp at he
      · injection he with he; subst he; decide
    · obtain ⟨ic, _, hpc⟩ := List.mem_flatMap.mp hp
      exact cardChecks1_msg_ne ic.1 ic.2 p hpc e he
  · unfold phase2 at hp
    rcases List.mem_cons.mp hp with hpe | hp
    · have h2 : p.2 = (if 0 < fx.q1.length then none
          else some (Err.assertionError "No villas found after applying location filter")) := by
        rw [hpe]
      rw [h2] at he
      split at he
      · simp at he
      · injection he with he; subst he; decide
    · obtain ⟨ic, _, hpe⟩ := List.mem_map.mp hp
      have h2 : p.2 = locVerdict ic.2 := by rw [← hpe]
      rw [h2] at he
      exact locVerdict_msg_ne ic.2 e he
  · unfold phase3 at hp
    rcases List.mem_cons.mp hp with hpe | hp
    · have h2 : p.2 = (if 0 < fx.q2.length then none
          else some (Err.assertionError "No villas found after applying price filter")) := by
        rw [hpe]
      rw [h2] at he
      split at he
      · simp at he
      · injection he with he; subst he; decide
    · obtain ⟨ic, _, hpe⟩ := List.mem_map.mp hp
      have h2 : p.2 = priceVerdict ic.2 := by rw [← hpe]
      rw [h2] at he
      exact priceVerdict_msg_ne ic.2 e he
  · unfold phase4 at hp
    rcases List.mem_cons.mp hp with hpe | hp
    · have h2 : p.2 = (if 0 < fx.q3.length then none
          else some (Err.assertionError "No villas found after applying amenities filter")) := by
        rw [hpe]
      rw [h2] at he
      split at he
      · simp at he
      · injection he with he; subst he; decide
    · obtain ⟨ic, _, hpe⟩ := List.mem_map.mp hp
      have h2 : p.2 = amenityVerdict ic.2 := by rw [← hpe]
      rw [h2] at he
      exact amenityVerdict_msg_ne ic.2 e he

/-- Sequential check execution: when position `n` holds the first
failing check, the executed checks are exactly the first `n` passing
ones followed by the failing one, and its error is the outcome. -/
theorem runChecks_first_fault :
    ∀ (l : List (Check × Option Err)) (n : Nat) (c : Check) (e : Err),
      l[n]? = some (c, some e) →
      (∀ p ∈ l.take n, p.2 = none) →
      runChecks l = ((l.take n).map Prod.fst ++ [c], .fault e) := by
  intro l
  induction l with
  | nil => intro n c e hget _; simp at hget
  | cons hd t ih =>
    intro n c e hget hpre
    cases n with
    | zero =>
      simp at hget
      subst hget
      simp [runChecks]
    | succ m =>
      obtain ⟨c0, o0⟩ := hd
      have h0 : o0 = none := hpre (c0, o0) (by simp [List.take_succ_cons])
      subst h0
      have hget2 : t[m]? = some (c, some e) := by simpa using hget
      have hpre2 : ∀ p ∈ t.take m, p.2 = none := fun p hp =>
        hpre p (by simp [List.take_succ_cons, hp])
      have hrec := ih m c e hget2 hpre2
      show (c0 :: (runChecks t).1, (runChecks t).2) = _
      rw [hrec]
      simp [List.take_succ_cons]

/-- C3 counterexample: a fixture of three cards where card #2 (index 1)
lacks only its price element.  The failing hard step is card #2's
key-information assertion, whose offending element is the missing
`.villa-price`; the recorded failure reason is the generic
"Key villa information missing", which mentions neither the price, nor
the selector, nor the card index — so the reason does not mention the
failing step's target. -/
theorem C3_counterexample_reason_without_target :
    (assertBlockRun fxThreeCards).2 = .fault (.assertionError "Key villa information missing")
    ∧ (assertBlockRun fxThreeCards).1.getLast? = some (.keyInfoCheck 1)
    ∧ strContains "Key villa information missing" "price" = false
    ∧ strContains "Key villa information missing" ".villa-price" = false
    ∧ strContains "Key villa information missing" "2" = false := by decide

/-- C3 amended: in the TC004 assertion sequence, when the check at
position n is the first failing one, no check after position n executes,
the recorded failure reason is exactly that check's message (first
failure wins), the message is non-empty, and the verdict is failed; the
message does not, however, always mention the failing step's specific
target (see the counterexample: the key-information check reports only
"Key villa information missing"). -/
theorem C3_amended_first_failure_stops (fx : Fixture) (n : Nat) (c : Check) (e : Err)
    (hget : (checksOf fx)[n]? = some (c, some e))
    (hpre : ∀ p ∈ (checksOf fx).take n, p.2 = none) :
    assertBlockRun fx = (((checksOf fx).take n).map Prod.fst ++ [c], .fault e)
    ∧ Err.msg e ≠ ""
    ∧ verdict (assertBlockRun fx).2 = false := by
  have h1 := runChecks_first_fault (checksOf fx) n c e hget hpre
  refine ⟨h1, ?_, ?_⟩
  · exact checksOf_msg_ne_empty fx (c, some e) (List.getElem?_mem hget) e rfl
  · have h2 : (assertBlockRun fx).2 = .fault e := by
      unfold assertBlockRun
      rw [h1]
    rw [h2]
    rfl

/-- Witness for C3: the amended theorem applied at the three-card
fixture, where the first failing check sits at position 4. -/
theorem C3_amended_first_failure_stops_witness :
    assertBlockRun fxThreeCards
      = (((checksOf fxThreeCards).take 4).map Prod.fst ++ [.keyInfoCheck 1],
          .fault (.assertionError "Key villa information missing"))
    ∧ Err.msg (.assertionError "Key villa information missing") ≠ ""
    ∧ verdict (assertBlockRun fxThreeCards).2 = false :=
  C3_amended_first_failure_stops fxThreeCards 4 (.keyInfoCheck 1)
    (.assertionError "Key villa information missing") (by decide) (by decide)

/-- C8 counterexample: on the fixture with three cards where card #2
(index 1) lacks only its price element, the assertion block does fail
and the verdict is false, but the failure message is the generic
"Key villa information missing": it identifies neither the price nor
card #2, contradicting the claim that the message identifies card #2's
missing price specifically. -/
theorem C8_counterexample_message_not_specific :
    verdict (assertBlockRun fxThreeCards).2 = false
    ∧ (assertBlockRun fxThreeCards).2
        = .fault (.assertionError "Key villa information missing")
    ∧ strContains "Key villa information missing" "price" = false
    ∧ strContains "Key villa information missing" "#2" = false
    ∧ strContains "Key villa information missing" "2" = false := by decide

/-- C8 amended: on the three-card fixture with card #2's price missing,
the assertion block fails at card #2's key-information check (card #3 is
never checked), the verdict is passed=false, and the failure message is
the generic "Key villa information missing", which does not name the
card index or the missing price field. -/
theorem C8_amended_card2_fails_generic :
    assertBlockRun fxThreeCards
      = ([.countCheck 1, .multimediaCheck 0, .keyInfoCheck 0, .multimediaCheck 1,
          .keyInfoCheck 1],
         .fault (.assertionError "Key villa information missing"))
    ∧ verdict (assertBlockRun fxThreeCards).2 = false := by decide

/- ## Soft-step independence (C4) -/

/-- Per-frame soft-wait events are all filtered out as soft. -/
theorem frameWaits_filter_nil (f : Nat → Bool) (n : Nat) :
    ((List.range n).map (fun j => Event.softFrameWait j (f j))).filter
      (fun e => !isSoftEv e) = [] := by
  rw [List.filter_eq_nil_iff]
  intro a ha
  obtain ⟨j, _, rfl⟩ := List.mem_map.mp ha
  simp [isSoftEv]

/-- The `try`-block step sequence: outcome and non-soft trace are
independent of the soft-wait outcomes. -/
theorem runBody_soft_independent (sc : List String) (hd : HardEnv) (s1 s2 : SoftEnv) :
    ∀ (steps : List BStep) (i : Nat),
      (runBody sc ⟨hd, s1⟩ steps i).2 = (runBody sc ⟨hd, s2⟩ steps i).2
      ∧ (runBody sc ⟨hd, s1⟩ steps i).1.filter (fun e => !isSoftEv e)
        = (runBody sc ⟨hd, s2⟩ steps i).1.filter (fun e => !isSoftEv e) := by
  intro steps
  induction steps with
  | nil => intro i; exact ⟨rfl, rfl⟩
  | cons st rest ih =>
    intro i
    obtain ⟨ihO, ihT⟩ := ih (i + 1)
    cases st with
    | nav url =>
      cases h : hd.interR i with
      | ok =>
        refine ⟨?_, ?_⟩
        · simp only [runBody, h]
          exact ihO
        · simp only [runBody, h]
          rw [List.filter_cons, List.filter_cons, ihT]
      | err m => simp [runBody, h]
    | softWaitPage =>
      refine ⟨?_, ?_⟩
      · simp only [runBody]
        exact ihO
      · simp only [runBody]
        rw [List.filter_cons, List.filter_cons, ihT]
        simp [isSoftEv]
    | frameDiscovery =>
      refine ⟨?_, ?_⟩
      · simp only [runBody]
        exact ihO
      · simp only [runBody]
        rw [List.filter_cons, List.filter_cons, List.filter_append, List.filter_append,
          frameWaits_filter_nil, frameWaits_filter_nil, ihT]
    | wheelScroll ident =>
      by_cases hc : ident ∈ sc
      · cases h : hd.interR i with
        | ok =>
          refine ⟨?_, ?_⟩
          · simp only [runBody, if_pos hc, h]
            exact ihO
          · simp only [runBody, if_pos hc, h]
            rw [List.filter_cons, List.filter_cons, ihT]
        | err m => simp [runBody, if_pos hc, h]
      · simp [runBody, if_neg hc]
    | click sel =>
      cases h : hd.interR i with
      | ok =>
        refine ⟨?_, ?_⟩
        · simp only [runBody, h]
          exact ihO
        · simp only [runBody, h]
          rw [List.filter_cons, List.filter_cons, ihT]
      | err m => simp [runBody, h]
    | fill sel v =>
      cases h : hd.interR i with
      | ok =>
        refine ⟨?_, ?_⟩
        · simp only [runBody, h]
          exact ihO
        · simp only [runBody, h]
          rw [List.filter_cons, List.filter_cons, ihT]
      | err m => simp [runBody, h]
    | assertBlockStep =>
      cases hb : (assertBlockRun hd.fixture).2 with
      | done =>
        refine ⟨?_, ?_⟩
        · simp only [runBody, hb]
          exact ihO
        · simp only [runBody, hb]
          rw [List.filter_append, List.filter_append, ihT]
      | fault e => simp [runBody, hb]
    | assertFalseStep m => exact ⟨rfl, rfl⟩
    | sleepStep =>
      refine ⟨?_, ?_⟩
      · simp only [runBody]
        exact ihO
      · simp only [runBody]
        rw [List.filter_cons, List.filter_cons, ihT]

/-- The whole `try` block: outcome, liveness flags and non-soft trace
are independent of the soft-wait outcomes. -/
theorem runTry_soft_independent (s : Script) (hd : HardEnv) (s1 s2 : SoftEnv) :
    (runTry s ⟨hd, s1⟩).2 = (runTry s ⟨hd, s2⟩).2
    ∧ (runTry s ⟨hd, s1⟩).1.filter (fun e => !isSoftEv e)
      = (runTry s ⟨hd, s2⟩).1.filter (fun e => !isSoftEv e) := by
  unfold runTry
  cases h1 : hd.startR with
  | err m => simp [h1]
  | ok =>
    cases h2 : hd.launchR with
    | err m => simp [h1, h2]
    | ok =>
      cases h3 : hd.ctxR with
      | err m => simp [h1, h2, h3]
      | ok =>
        cases h4 : hd.pageR with
        | err m => simp [h1, h2, h3, h4]
        | ok =>
          simp only [h1, h2, h3, h4]
          obtain ⟨hO, hT⟩ := runBody_soft_independent s.scope hd s1 s2 s.body 0
          refine ⟨by rw [hO], ?_⟩
          rw [List.filter_append, List.filter_append, hT]

/-- C4: a timeout or failure of a soft step (the best-effort
"domcontentloaded" wait on the page or any per-frame load-state wait)
is swallowed and never by itself changes the run's outcome: two runs of
the same scenario under the same engine behaviour but arbitrary,
different soft-wait outcomes produce the same verdict, the same
`try`-block outcome, and the same trace of non-soft events — the run
proceeds past the soft step either way. -/
theorem C4_soft_step_failure_immaterial (s : Script) (hd : HardEnv) (s1 s2 : SoftEnv) :
    (runScript s ⟨hd, s1⟩).result = (runScript s ⟨hd, s2⟩).result
    ∧ (runScript s ⟨hd, s1⟩).body = (runScript s ⟨hd, s2⟩).body
    ∧ (runScript s ⟨hd, s1⟩).trace.filter (fun e => !isSoftEv e)
      = (runScript s ⟨hd, s2⟩).trace.filter (fun e => !isSoftEv e) := by
  obtain ⟨h2, hT⟩ := runTry_soft_independent s hd s1 s2
  refine ⟨?_, ?_, ?_⟩
  · show combineResult (teardown (runTry s ⟨hd, s1⟩).2.2 hd).2 (runTry s ⟨hd, s1⟩).2.1
      = combineResult (teardown (runTry s ⟨hd, s2⟩).2.2 hd).2 (runTry s ⟨hd, s2⟩).2.1
    rw [h2]
  · show (runTry s ⟨hd, s1⟩).2.1 = (runTry s ⟨hd, s2⟩).2.1
    rw [h2]
  · show ((runTry s ⟨hd, s1⟩).1 ++ (teardown (runTry s ⟨hd, s1⟩).2.2 hd).1).filter
        (fun e => !isSoftEv e)
      = ((runTry s ⟨hd, s2⟩).1 ++ (teardown (runTry s ⟨hd, s2⟩).2.2 hd).1).filter
        (fun e => !isSoftEv e)
    rw [List.filter_append, List.filter_append, hT, h2]

/-- C5 counterexample: TC012 performs full navigations to /login
(position 4) and /home (position 5) with no frame-discovery step
anywhere after them, and TC005 likewise navigates to /login (position 5)
with no later frame discovery; frame discovery is NOT re-executed after
every navigation. -/
theorem C5_counterexample_no_rediscovery :
    tc012.body[4]? = some (.nav (baseUrl ++ "/login"))
    ∧ tc012.body[5]? = some (.nav (baseUrl ++ "/home"))
    ∧ (tc012.body.drop 5).contains BStep.frameDiscovery = false
    ∧ tc005.body[5]? = some (.nav (baseUrl ++ "/login"))
    ∧ (tc005.body.drop 6).contains BStep.frameDiscovery = false := by decide

/-- C5 amended: each scenario enumerates frames (with the per-frame
best-effort waits) exactly once, immediately after the initial
navigation and its page-level soft wait; the later full navigations of
TC005 and TC012 are not followed by any frame re-discovery. -/
theorem C5_amended_discovery_only_initial :
    tc004.body.count BStep.frameDiscovery = 1
    ∧ tc005.body.count BStep.frameDiscovery = 1
    ∧ tc007.body.count BStep.frameDiscovery = 1
    ∧ tc012.body.count BStep.frameDiscovery = 1
    ∧ tc004.body[0]? = some (.nav baseUrl) ∧ tc004.body[2]? = some .frameDiscovery
    ∧ tc005.body[0]? = some (.nav baseUrl) ∧ tc005.body[2]? = some .frameDiscovery
    ∧ tc007.body[0]? = some (.nav baseUrl) ∧ tc007.body[2]? = some .frameDiscovery
    ∧ tc012.body[0]? = some (.nav baseUrl) ∧ tc012.body[2]? = some .frameDiscovery
    ∧ (tc012.body.drop 5).contains BStep.frameDiscovery = false
    ∧ (tc005.body.drop 6).contains BStep.frameDiscovery = false := by decide

/-- Price verdict of a card whose parsed price lies outside [100, 500]:
the range assertion fails with the f-string message of TC004 line 76. -/
theorem priceVerdict_out_of_range (c : Card) (t : String) (p : ℚ)
    (hc : c.price = some t) (hp : pyFloatParse (stripPriceArtifacts t) = some p)
    (hr : priceInRange p = false) :
    priceVerdict c = some (.assertionError ("Villa price " ++ pyNumRepr p ++ " out of range")) := by
  unfold priceVerdict
  simp [hc, hp, hr]

/-- Price verdict of a card whose parsed price lies inside [100, 500]:
the range assertion passes. -/
theorem priceVerdict_in_range (c : Card) (t : String) (p : ℚ)
    (hc : c.price = some t) (hp : pyFloatParse (stripPriceArtifacts t) = some p)
    (hr : priceInRange p = true) :
    priceVerdict c = none := by
  unfold priceVerdict
  simp [hc, hp, hr]

/-- Parsed value of a rendered price "$N.00" in the concrete cards. -/
theorem parse_price_80 : pyFloatParse (stripPriceArtifacts "$80.00") = some (80 : ℚ) := by
  have h : pyFloatParse (stripPriceArtifacts "$80.00")
      = some (((digitsVal ['8', '0'] * 10 ^ 2 + digitsVal ['0', '0'] : ℕ) : ℚ)
          / ((10 : ℚ) ^ 2)) := rfl
  have d : (digitsVal ['8', '0'] * 10 ^ 2 + digitsVal ['0', '0'] : ℕ) = 8000 := by decide
  rw [h, d]
  norm_num

/-- Parsed value of "$150.00". -/
theorem parse_price_150 : pyFloatParse (stripPriceArtifacts "$150.00") = some (150 : ℚ) := by
  have h : pyFloatParse (stripPriceArtifacts "$150.00")
      = some (((digitsVal ['1', '5', '0'] * 10 ^ 2 + digitsVal ['0', '0'] : ℕ) : ℚ)
          / ((10 : ℚ) ^ 2)) := rfl
  have d : (digitsVal ['1', '5', '0'] * 10 ^ 2 + digitsVal ['0', '0'] : ℕ) = 15000 := by decide
  rw [h, d]
  norm_num

/-- Parsed value of "$300.00". -/
theorem parse_price_300 : pyFloatParse (stripPriceArtifacts "$300.00") = some (300 : ℚ) := by
  have h : pyFloatParse (stripPriceArtifacts "$300.00")
      = some (((digitsVal ['3', '0', '0'] * 10 ^ 2 + digitsVal ['0', '0'] : ℕ) : ℚ)
          / ((10 : ℚ) ^ 2)) := rfl
  have d : (digitsVal ['3', '0', '0'] * 10 ^ 2 + digitsVal ['0', '0'] : ℕ) = 30000 := by decide
  rw [h, d]
  norm_num

/-- Parsed value of "$600.00". -/
theorem parse_price_600 : pyFloatParse (stripPriceArtifacts "$600.00") = some (600 : ℚ) := by
  have h : pyFloatParse (stripPriceArtifacts "$600.00")
      = some (((digitsVal ['6', '0', '0'] * 10 ^ 2 + digitsVal ['0', '0'] : ℕ) : ℚ)
          / ((10 : ℚ) ^ 2)) := rfl
  have d : (digitsVal ['6', '0', '0'] * 10 ^ 2 + digitsVal ['0', '0'] : ℕ) = 60000 := by decide
  rw [h, d]
  norm_num

/-- C6: the application-side filter [100, 500] over cards priced
[80, 150, 300, 600] presents exactly {150, 300}; the scenario's range
assertion (TC004 line 76) accepts 150 and 300 and rejects 80 and 600,
and membership of 80 or 600 in the presented set fails. -/
theorem C6_price_range_filter_scenario :
    priceRangeFilter 100 500 [80, 150, 300, 600] = [150, 300]
    ∧ priceInRange 150 = true ∧ priceInRange 300 = true
    ∧ priceInRange 80 = false ∧ priceInRange 600 = false
    ∧ (80 : ℚ) ∉ priceRangeFilter 100 500 [80, 150, 300, 600]
    ∧ (600 : ℚ) ∉ priceRangeFilter 100 500 [80, 150, 300, 600]
    ∧ priceVerdict cardPrice150 = none
    ∧ priceVerdict cardPrice300 = none
    ∧ (∃ m, priceVerdict cardPrice80 = some (.assertionError m))
    ∧ (∃ m, priceVerdict cardPrice600 = some (.assertionError m)) := by
  refine ⟨by decide, by decide, by decide, by decide, by decide, by decide, by decide,
    ?_, ?_, ?_, ?_⟩
  · exact priceVerdict_in_range cardPrice150 "$150.00" 150 rfl parse_price_150 (by decide)
  · exact priceVerdict_in_range cardPrice300 "$300.00" 300 rfl parse_price_300 (by decide)
  · exact ⟨_, priceVerdict_out_of_range cardPrice80 "$80.00" 80 rfl parse_price_80 (by decide)⟩
  · exact ⟨_, priceVerdict_out_of_range cardPrice600 "$600.00" 600 rfl parse_price_600 (by decide)⟩

/-- C7: numeric extraction of the rendered price text strips the
currency symbol and thousands separators, and "$1,234.00" parses to
exactly 1234; when the residual text after stripping is not a valid
number, the extraction path raises (ValueError, the ParseError of the
spec) instead of producing a value. -/
theorem C7_price_extraction :
    extractPrice "$1,234.00" = some (1234 : ℚ)
    ∧ stripPriceArtifacts "$1,234.00" = "1234.00"
    ∧ (∀ (c : Card) (t : String), c.price = some t →
        pyFloatParse (stripPriceArtifacts t) = none →
        priceVerdict c = some (.valueError
          ("could not convert string to float: \x27" ++ stripPriceArtifacts t ++ "\x27"))) := by
  refine ⟨?_, by decide, ?_⟩
  · have h : extractPrice "$1,234.00"
        = some (((digitsVal ['1', '2', '3', '4'] * 10 ^ 2 + digitsVal ['0', '0'] : ℕ) : ℚ)
            / ((10 : ℚ) ^ 2)) := rfl
    have d : (digitsVal ['1', '2', '3', '4'] * 10 ^ 2 + digitsVal ['0', '0'] : ℕ) = 123400 := by
      decide
    rw [h, d]
    norm_num
  · intro c t hc hp
    unfold priceVerdict
    simp [hc, hp]

/-- Witness for C7: a card whose rendered price "N/A" cannot be parsed;
extraction raises the ValueError instead of returning a value. -/
theorem C7_price_extraction_witness :
    pyFloatParse (stripPriceArtifacts "N/A") = none
    ∧ priceVerdict cardBadPrice
        = some (.valueError "could not convert string to float: \x27N/A\x27") := by
  refine ⟨by decide, ?_⟩
  have h := C7_price_extraction.2.2 cardBadPrice "N/A" rfl (by decide)
  rw [h]
  decide

/- ## Run-shape lemmas for whole-script reasoning -/

/-- With all four acquisitions succeeding, the run's `try`-block outcome
is the body outcome. -/
theorem runScript_body_ok (s : Script) (env : Env)
    (ha1 : env.hard.startR = .ok) (ha2 : env.hard.launchR = .ok)
    (ha3 : env.hard.ctxR = .ok) (ha4 : env.hard.pageR = .ok) :
    (runScript s env).body = (runBody s.scope env s.body 0).2 := by
  show (runTry s env).2.1 = _
  unfold runTry
  rw [ha1, ha2, ha3, ha4]

/-- With all four acquisitions succeeding, the verdict combines the
teardown of the fully-acquired session with the body outcome. -/
theorem runScript_result_ok (s : Script) (env : Env)
    (ha1 : env.hard.startR = .ok) (ha2 : env.hard.launchR = .ok)
    (ha3 : env.hard.ctxR = .ok) (ha4 : env.hard.pageR = .ok) :
    (runScript s env).result
      = combineResult (teardown ⟨true, true, true⟩ env.hard).2
          (runBody s.scope env s.body 0).2 := by
  show combineResult (teardown (runTry s env).2.2 env.hard).2 (runTry s env).2.1 = _
  unfold runTry
  rw [ha1, ha2, ha3, ha4]

/-- With all four acquisitions succeeding, the trace is the acquisition
events, the body events, then the teardown events. -/
theorem runScript_trace_ok (s : Script) (env : Env)
    (ha1 : env.hard.startR = .ok) (ha2 : env.hard.launchR = .ok)
    (ha3 : env.hard.ctxR = .ok) (ha4 : env.hard.pageR = .ok) :
    (runScript s env).trace
      = ([.engineStarted, .browserLaunched, .contextCreated, .pageOpened]
          ++ (runBody s.scope env s.body 0).1)
        ++ (teardown ⟨true, true, true⟩ env.hard).1 := by
  show (runTry s env).1 ++ (teardown (runTry s env).2.2 env.hard).1 = _
  unfold runTry
  rw [ha1, ha2, ha3, ha4]

/-- The `try`-block trace is one of five shapes, depending on how far
acquisition got. -/
theorem runTry_trace_shape (s : Script) (env : Env) :
    (runTry s env).1 = []
    ∨ (runTry s env).1 = [.engineStarted]
    ∨ (runTry s env).1 = [.engineStarted, .browserLaunched]
    ∨ (runTry s env).1 = [.engineStarted, .browserLaunched, .contextCreated]
    ∨ (runTry s env).1 = [.engineStarted, .browserLaunched, .contextCreated, .pageOpened]
        ++ (runBody s.scope env s.body 0).1 := by
  unfold runTry
  cases env.hard.startR <;> cases env.hard.launchR <;> cases env.hard.ctxR <;>
    cases env.hard.pageR <;> simp

/-- In a body of shape navigate, page soft wait, frame discovery, then
the scroll that evaluates the unbound name `window`, every emitted event
(whether or not the navigation succeeds) is a pre-scroll event. -/
theorem preScroll_trace (sc : List String) (env : Env) (u : String) (rest : List BStep)
    (hw : "window" ∉ sc) :
    ∀ e ∈ (runBody sc env
        (.nav u :: .softWaitPage :: .frameDiscovery :: .wheelScroll "window" :: rest) 0).1,
      preScrollEvent e = true := by
  intro e he
  cases h : env.hard.interR 0 with
  | err m => simp [runBody, h] at he
  | ok =>
    simp only [runBody, h, if_neg hw] at he
    simp only [List.mem_cons, List.append_nil, List.mem_append, List.mem_map,
      List.mem_range] at he
    rcases he with rfl | rfl | rfl | ⟨j, _, rfl⟩ <;> rfl

/-- In a body of that shape, once the navigation succeeds, the scroll's
name resolution of `window` fails and the `try` block faults with the
NameError. -/
theorem scroll_body_outcome (sc : List String) (env : Env) (u : String) (rest : List BStep)
    (hw : "window" ∉ sc) (h0 : env.hard.interR 0 = .ok) :
    (runBody sc env
        (.nav u :: .softWaitPage :: .frameDiscovery :: .wheelScroll "window" :: rest) 0).2
      = .fault (.nameError "window") := by
  simp [runBody, h0, if_neg hw]

/-- A sequence of benign steps whose engine calls all succeed, followed
by the placeholder failing assertion: the block faults with exactly that
assertion's message, and every emitted event is benign (in particular
the trailing sleep never runs). -/
theorem runBody_benign_then_assertFalse (env : Env) (sc : List String) (msg : String)
    (tail : List BStep) :
    ∀ (steps : List BStep) (i : Nat),
      (∀ b ∈ steps, isBenign b = true) →
      (∀ j, j < steps.length → env.hard.interR (i + j) = .ok) →
      (runBody sc env (steps ++ .assertFalseStep msg :: tail) i).2
          = .fault (.assertionError msg)
      ∧ ∀ e ∈ (runBody sc env (steps ++ .assertFalseStep msg :: tail) i).1,
          benignEvent e = true := by
  intro steps
  induction steps with
  | nil =>
    intro i _ _
    exact ⟨rfl, by intro e he; simp [runBody] at he⟩
  | cons b bs ih =>
    intro i hb hok
    have hbs : ∀ x ∈ bs, isBenign x = true := fun x hx => hb x (List.mem_cons_of_mem b hx)
    have hok2 : ∀ j, j < bs.length → env.hard.interR (i + 1 + j) = .ok := by
      intro j hj
      have h := hok (j + 1) (by simpa using Nat.succ_lt_succ hj)
      rwa [show i + (j + 1) = i + 1 + j by omega] at h
    obtain ⟨ihO, ihT⟩ := ih (i + 1) hbs hok2
    have h0 : env.hard.interR i = .ok := by
      have h := hok 0 (by simp)
      rwa [Nat.add_zero] at h
    cases b with
    | nav url =>
      refine ⟨?_, ?_⟩
      · simp only [List.cons_append, runBody, h0]
        exact ihO
      · simp only [List.cons_append, runBody, h0]
        intro e he
        rcases List.mem_cons.mp he with rfl | he
        · rfl
        · exact ihT e he
    | softWaitPage =>
      refine ⟨?_, ?_⟩
      · simp only [List.cons_append, runBody]
        exact ihO
      · simp only [List.cons_append, runBody]
        intro e he
        rcases List.mem_cons.mp he with rfl | he
        · rfl
        · exact ihT e he
    | frameDiscovery =>
      refine ⟨?_, ?_⟩
      · simp only [List.cons_append, runBody]
        exact ihO
      · simp only [List.cons_append, runBody]
        intro e he
        rcases List.mem_cons.mp he with rfl | he
        · rfl
        · rcases List.mem_append.mp he with he2 | he2
          · obtain ⟨j, _, rfl⟩ := List.mem_map.mp he2
            rfl
          · exact ihT e he2
    | click sel =>
      refine ⟨?_, ?_⟩
      · simp only [List.cons_append, runBody, h0]
        exact ihO
      · simp only [List.cons_append, runBody, h0]
        intro e he
        rcases List.mem_cons.mp he with rfl | he
        · rfl
        · exact ihT e he
    | fill sel v =>
      refine ⟨?_, ?_⟩
      · simp only [List.cons_append, runBody, h0]
        exact ihO
      · simp only [List.cons_append, runBody, h0]
        intro e he
        rcases List.mem_cons.mp he with rfl | he
        · rfl
        · exact ihT e he
    | wheelScroll ident =>
      exact absurd (hb _ (List.mem_cons_self _ _)) (by simp [isBenign])
    | assertBlockStep =>
      exact absurd (hb _ (List.mem_cons_self _ _)) (by simp [isBenign])
    | assertFalseStep m =>
      exact absurd (hb _ (List.mem_cons_self _ _)) (by simp [isBenign])
    | sleepStep =>
      exact absurd (hb _ (List.mem_cons_self _ _)) (by simp [isBenign])

/-- C10: the scroll step of TC004, TC005 and TC012 evaluates the name
`window`, which is not bound in the scripts' scope (it is a browser-side
JavaScript global); once a run reaches that step (acquisitions and the
initial navigation succeeded), the `try` block faults with the
name-resolution error, and in particular TC004's villa-listing and
filter assertions never execute in any run. -/
theorem C10_window_unbound_scroll :
    "window" ∉ tc004.scope ∧ "window" ∉ tc005.scope ∧ "window" ∉ tc012.scope
    ∧ (∀ (env : Env) (c : Check), Event.checked c ∉ (runScript tc004 env).trace)
    ∧ (∀ env : Env, env.hard.startR = .ok → env.hard.launchR = .ok →
        env.hard.ctxR = .ok → env.hard.pageR = .ok → env.hard.interR 0 = .ok →
        (runScript tc004 env).body = .fault (.nameError "window")
        ∧ (runScript tc005 env).body = .fault (.nameError "window")
        ∧ (runScript tc012 env).body = .fault (.nameError "window")) := by
  refine ⟨by decide, by decide, by decide, ?_, ?_⟩
  · intro env c hmem
    have hsplit : (runScript tc004 env).trace
        = (runTry tc004 env).1 ++ (teardown (runTry tc004 env).2.2 env.hard).1 := rfl
    rw [hsplit] at hmem
    rcases List.mem_append.mp hmem with hm | hm
    · rcases runTry_trace_shape tc004 env with h | h | h | h | h <;> rw [h] at hm
      · exact absurd hm (List.not_mem_nil _)
      · simp at hm
      · simp at hm
      · simp at hm
      · rcases List.mem_append.mp hm with hm2 | hm2
        · simp at hm2
        · have hb : tc004.body
              = .nav baseUrl :: .softWaitPage :: .frameDiscovery :: .wheelScroll "window"
                :: [.assertBlockStep, .sleepStep] := rfl
          rw [hb] at hm2
          have hps := preScroll_trace tc004.scope env baseUrl [.assertBlockStep, .sleepStep]
            (by decide) (Event.checked c) hm2
          simp [preScrollEvent] at hps
    · have hcl := teardown_all_close _ env.hard _ hm
      simp [isClose] at hcl
  · intro env ha1 ha2 ha3 ha4 h0
    refine ⟨?_, ?_, ?_⟩
    · rw [runScript_body_ok tc004 env ha1 ha2 ha3 ha4]
      have hb : tc004.body
          = .nav baseUrl :: .softWaitPage :: .frameDiscovery :: .wheelScroll "window"
            :: [.assertBlockStep, .sleepStep] := rfl
      rw [hb]
      exact scroll_body_outcome tc004.scope env baseUrl _ (by decide) h0
    · rw [runScript_body_ok tc005 env ha1 ha2 ha3 ha4]
      have hb : tc005.body
          = .nav baseUrl :: .softWaitPage :: .frameDiscovery :: .wheelScroll "window"
            :: List.drop 4 tc005.body := rfl
      rw [hb]
      exact scroll_body_outcome tc005.scope env baseUrl _ (by decide) h0
    · rw [runScript_body_ok tc012 env ha1 ha2 ha3 ha4]
      have hb : tc012.body
          = .nav baseUrl :: .softWaitPage :: .frameDiscovery :: .wheelScroll "window"
            :: List.drop 4 tc012.body := rfl
      rw [hb]
      exact scroll_body_outcome tc012.scope env baseUrl _ (by decide) h0

/-- Witness for C10: the all-succeeding environment reaches the scroll
step in each of the three scenarios, and each faults with the
NameError on `window`. -/
theorem C10_window_unbound_scroll_witness :
    (runScript tc004 envAllOk).body = .fault (.nameError "window")
    ∧ (runScript tc005 envAllOk).body = .fault (.nameError "window")
    ∧ (runScript tc012 envAllOk).body = .fault (.nameError "window") :=
  C10_window_unbound_scroll.2.2.2.2 envAllOk rfl rfl rfl rfl rfl

/-- C9: TC005, TC007 and TC012 end with the unconditional placeholder
assertion followed by a sleep.  In a TC007 run where every preceding
interaction step succeeds (and teardown succeeds), the run terminates
failed with the reason exactly "Test plan execution failed: generic
failure assertion." and the final sleep never executes — the harness
reports the assertion as given.  In TC005 and TC012 the same
assert-then-sleep structure is present at the end of the body, and the
sleep never executes in any run (their scroll step always faults first,
see C10, so the all-preceding-steps-succeed condition is there
unsatisfiable). -/
theorem C9_placeholder_assertion_reported (env : Env) :
    (env.hard.startR = .ok → env.hard.launchR = .ok → env.hard.ctxR = .ok →
      env.hard.pageR = .ok →
      (∀ j, j < tc007Steps.length → env.hard.interR j = .ok) →
      env.hard.closeCtxR = .ok → env.hard.closeBrowserR = .ok → env.hard.stopR = .ok →
      (runScript tc007 env).result = .failed (.assertionError genericFailMsg)
      ∧ Event.slept ∉ (runScript tc007 env).trace)
    ∧ Event.slept ∉ (runScript tc005 env).trace
    ∧ Event.slept ∉ (runScript tc012 env).trace
    ∧ tc005.body[27]? = some (.assertFalseStep genericFailMsg)
    ∧ tc005.body[28]? = some .sleepStep
    ∧ tc007.body[21]? = some (.assertFalseStep genericFailMsg)
    ∧ tc007.body[22]? = some .sleepStep
    ∧ tc012.body[17]? = some (.assertFalseStep genericFailMsg)
    ∧ tc012.body[18]? = some .sleepStep := by
  refine ⟨?_, ?_, ?_, by decide, by decide, by decide, by decide, by decide, by decide⟩
  · intro ha1 ha2 ha3 ha4 hI hc1 hc2 hc3
    have hbenign : ∀ b ∈ tc007Steps, isBenign b = true := by decide
    have hok : ∀ j, j < tc007Steps.length → env.hard.interR (0 + j) = .ok := by
      intro j hj
      rw [Nat.zero_add]
      exact hI j hj
    obtain ⟨hO, hT⟩ := runBody_benign_then_assertFalse env tc007.scope genericFailMsg
      [.sleepStep] tc007Steps 0 hbenign hok
    have hb2 : tc007.body = tc007Steps ++ .assertFalseStep genericFailMsg :: [.sleepStep] := rfl
    constructor
    · rw [runScript_result_ok tc007 env ha1 ha2 ha3 ha4,
        teardown_ok ⟨true, true, true⟩ env.hard hc1 hc2 hc3, hb2, hO]
      rfl
    · intro hmem
      rw [runScript_trace_ok tc007 env ha1 ha2 ha3 ha4, hb2,
        teardown_ok ⟨true, true, true⟩ env.hard hc1 hc2 hc3] at hmem
      simp only [List.mem_append, List.mem_cons, List.not_mem_nil, or_false] at hmem
      rcases hmem with (hm | hm) | hm
      · simp at hm
      · have hbe := hT _ hm
        simp [benignEvent] at hbe
      · simp [closeSeq] at hm
  · intro hmem
    have hsplit : (runScript tc005 env).trace
        = (runTry tc005 env).1 ++ (teardown (runTry tc005 env).2.2 env.hard).1 := rfl
    rw [hsplit] at hmem
    rcases List.mem_append.mp hmem with hm | hm
    · rcases runTry_trace_shape tc005 env with h | h | h | h | h <;> rw [h] at hm
      · exact absurd hm (List.not_mem_nil _)
      · simp at hm
      · simp at hm
      · simp at hm
      · rcases List.mem_append.mp hm with hm2 | hm2
        · simp at hm2
        · have hb : tc005.body
              = .nav baseUrl :: .softWaitPage :: .frameDiscovery :: .wheelScroll "window"
                :: List.drop 4 tc005.body := rfl
          rw [hb] at hm2
          have hps := preScroll_trace tc005.scope env baseUrl (List.drop 4 tc005.body)
            (by decide) Event.slept hm2
          simp [preScrollEvent] at hps
    · have hcl := teardown_all_close _ env.hard _ hm
      simp [isClose] at hcl
  · intro hmem
    have hsplit : (runScript tc012 env).trace
        = (runTry tc012 env).1 ++ (teardown (runTry tc012 env).2.2 env.hard).1 := rfl
    rw [hsplit] at hmem
    rcases List.mem_append.mp hmem with hm | hm
    · rcases runTry_trace_shape tc012 env with h | h | h | h | h <;> rw [h] at hm
      · exact absurd hm (List.not_mem_nil _)
      · simp at hm
      · simp at hm
      · simp at hm
      · rcases List.mem_append.mp hm with hm2 | hm2
        · simp at hm2
        · have hb : tc012.body
              = .nav baseUrl :: .softWaitPage :: .frameDiscovery :: .wheelScroll "window"
                :: List.drop 4 tc012.body := rfl
          rw [hb] at hm2
          have hps := preScroll_trace tc012.scope env baseUrl (List.drop 4 tc012.body)
            (by decide) Event.slept hm2
          simp [preScrollEvent] at hps
    · have hcl := teardown_all_close _ env.hard _ hm
      simp [isClose] at hcl

/-- Witness for C9: an all-succeeding TC007 run ends failed with
exactly the placeholder message and never sleeps. -/
theorem C9_placeholder_assertion_reported_witness :
    (runScript tc007 envAllOk).result = .failed (.assertionError genericFailMsg)
    ∧ Event.slept ∉ (runScript tc007 envAllOk).trace :=
  (C9_placeholder_assertion_reported envAllOk).1 rfl rfl rfl rfl
    (fun _ _ => rfl) rfl rfl rfl


